import Mathlib

/-!
Verification development for the Shoutbox NodeJS email client
(`src/index.ts`, `src/smtp.ts`, `src/types.ts`).

The TypeScript source is shallowly embedded: JavaScript strings become
`String`, `Buffer`s become `List Nat` (byte values), `undefined`-able
fields become `Option`, thrown exceptions become `Except`, and the
external collaborators (filesystem reads, MIME lookup, template
rendering, `fetch`, `nodemailer.sendMail`) become function-valued
parameters collected in a `Collab` record.  JavaScript truthiness on
strings (where `""` is falsy) is modelled explicitly by the `jsOr*`
helpers, since several normalization steps in the source use `!x` or
`x || y` tests on possibly-empty strings.
-/

set_option autoImplicit false

namespace ShoutboxSpec

/-- A JavaScript argument that may be `undefined`, `null`, or a string.
Used for the `Shoutbox` constructor, which distinguishes `undefined`
(fall back to the environment) from `null`/empty (no fallback in the
current constructor). -/
inductive JsArg where
  | undef
  | null
  | str (s : String)
deriving DecidableEq, Repr

/-- Attachment content: either a base64 text string (a JS string) or raw
bytes (a `Buffer`, modelled as a list of byte values).  This is the
tagged variant behind the source's `string | Buffer` union, which the
source discriminates with `typeof`. -/
inductive Content where
  | base64Text (s : String)
  | rawBytes (b : List Nat)
deriving DecidableEq, Repr

/-- `to` / `cc` recipients: a single address or an ordered list
(`string | string[]` in `types.ts`). -/
inductive Recipients where
  | single (s : String)
  | many (l : List String)
deriving DecidableEq, Repr

/-- An opaque template value (the `react` field).  The core never
inspects it; collaborators render it or serialize it. -/
structure Template where
  id : Nat
deriving DecidableEq, Repr

/-- `Attachment` from `types.ts`: `filename?`, `filepath`,
`contentType?`, `content?`. -/
structure Attachment where
  filename : Option String
  filepath : String
  contentType : Option String
  content : Option Content
deriving DecidableEq, Repr

/-- `EmailOptions` from `types.ts`.  The TS fields `from` and `to` are
Lean keywords, so they are called `fromAddr` and `toAddr` here; all
other names match the source. -/
structure EmailOptions where
  fromAddr : String
  name : Option String
  toAddr : Recipients
  subject : String
  html : Option String
  text : Option String
  react : Option Template
  attachments : Option (List Attachment)
  replyTo : Option String
  tags : Option (List (String × String))
  headers : Option (List (String × String))
  cc : Option Recipients
deriving DecidableEq, Repr

/-! ## JavaScript truthiness helpers -/

/-- JS truthiness of an optional string: `undefined` and `""` are falsy. -/
def strTruthy : Option String → Bool
  | none => false
  | some s => s ≠ ""

/-- JS `x || d` where `x : string | false | undefined` and `d` a string:
the default is used when `x` is absent or empty (both falsy). -/
def jsOrStr (x : Option String) (d : String) : String :=
  match x with
  | none => d
  | some s => if s = "" then d else s

/-- JS `x || y` on two optional strings (as in
`options.text || fallback`): `x` wins iff it is truthy. -/
def jsOrOptStr (x y : Option String) : Option String :=
  if strTruthy x then x else y

/-- JS truthiness of the `content` field (`if (!e.content)`): absent and
`""` are falsy; any `Buffer` (even empty) is truthy because it is an
object. -/
def contentTruthy : Option Content → Bool
  | none => false
  | some (.base64Text s) => s ≠ ""
  | some (.rawBytes _) => true

/-! ## Collaborators (`path.basename`, base64, MIME lookup, fetch, ...) -/

/-- JS `String.prototype.trim`: drop leading and trailing whitespace.
(Defined over the character list so that it reduces inside the
kernel.) -/
def jsTrim (s : String) : String :=
  String.mk (((s.data.dropWhile Char.isWhitespace).reverse.dropWhile
    Char.isWhitespace).reverse)

/-- Node's POSIX `path.basename`: drop trailing separators, then take
the part after the last separator.  `basename "" = ""` and
`basename "/" = ""`, as in Node. -/
def basename (p : String) : String :=
  let r := (p.data.reverse.dropWhile (fun c => c = '/'))
  String.mk ((r.takeWhile (fun c => c ≠ '/')).reverse)

/-- The standard base64 alphabet. -/
def b64Chars : List Char :=
  "ABCDEFGHIJKLMNOPQRSTUVWXYZabcdefghijklmnopqrstuvwxyz0123456789+/".data

/-- The base64 digit for a 6-bit value. -/
def b64Char (n : Nat) : Char := b64Chars.getD n 'A'

/-- `Buffer.prototype.toString("base64")`: encode bytes 3 at a time with
`=` padding. -/
def encode64 : List Nat → List Char
  | [] => []
  | [a] => [b64Char (a / 4), b64Char (a % 4 * 16), '=', '=']
  | [a, b] => [b64Char (a / 4), b64Char (a % 4 * 16 + b / 16), b64Char (b % 16 * 4), '=']
  | a :: b :: c :: rest =>
    b64Char (a / 4) :: b64Char (a % 4 * 16 + b / 16) ::
      b64Char (b % 16 * 4 + c / 64) :: b64Char (c % 64) :: encode64 rest

/-- The 6-bit value of a base64 digit, `none` for padding or foreign
characters (Node's decoder skips those). -/
def b64Val (c : Char) : Option Nat :=
  b64Chars.indexOf? c

/-- Reassemble bytes from a stream of 6-bit values. -/
def decodeVals : List Nat → List Nat
  | a :: b :: c :: d :: rest =>
    (a * 4 + b / 16) :: (b % 16 * 16 + c / 4) :: (c % 4 * 64 + d) :: decodeVals rest
  | [a, b, c] => [a * 4 + b / 16, b % 16 * 16 + c / 4]
  | [a, b] => [a * 4 + b / 16]
  | _ => []

/-- `Buffer.from(s, "base64")`: decode, skipping padding and foreign
characters. -/
def decode64 (s : String) : List Nat :=
  decodeVals (s.data.filterMap b64Val)

/-- An HTTP request as assembled by `fetch(API_ENDPOINT, {...})`. -/
structure HttpRequest where
  url : String
  method : String
  headers : List (String × String)
  body : String
deriving DecidableEq, Repr

/-- The outcome of one `fetch` call: `response.ok` with a JSON body, a
non-2xx response with its text, or a thrown network error. -/
inductive FetchOutcome where
  | ok (jsonBody : String)
  | httpError (text : String)
  | networkError (e : String)
deriving DecidableEq, Repr

/-- The `mailOptions.attachments` entries the SMTP path hands to
nodemailer: filename, raw content bytes, content type. -/
structure MailAttachment where
  filename : String
  content : List Nat
  contentType : String
deriving DecidableEq, Repr

/-- The `mailOptions` object built by `SMTPClient.sendEmail` (the TS
fields `from` and `to` are `fromAddr` and `toAddr` here). -/
structure MailOptions where
  fromAddr : String
  toAddr : String
  cc : Option String
  subject : String
  html : Option String
  text : Option String
  replyTo : Option String
  attachments : List MailAttachment
  headers : List (String × String)
deriving DecidableEq, Repr

/-- The external collaborators, as the spec's §1 lists them: filesystem
reads, MIME-type lookup, template rendering (plus the JSON shape of an
unrendered template value left on the options object), the HTTP
transport, and nodemailer's `sendMail`. -/
structure Collab where
  fs : String → Option (List Nat)
  mimeLookup : String → Option String
  render : Template → String
  templateJson : Template → String
  fetch : HttpRequest → FetchOutcome
  sendMail : MailOptions → Except String Unit

/-! ## Constructors -/

/-- The HTTP dispatcher: after construction it only holds the
credential. -/
structure Shoutbox where
  apiKey : String
deriving DecidableEq, Repr

/-- `new Shoutbox(apiKey)` in `src/index.ts`:
`this.apiKey = apiKey || process.env.SHOUTBOX_API_KEY!` followed by
`if (!this.apiKey) throw ...` — a falsy argument (undefined, null, or
`""`) falls back to the environment, and a still-falsy key throws. -/
def Shoutbox.makeOld (apiKey : JsArg) (envKey : Option String) : Except String Shoutbox :=
  let key : Option String :=
    match apiKey with
    | .str s => if s = "" then envKey else some s
    | _ => envKey
  match key with
  | some s => if s = "" then .error "API key is required for Shoutbox" else .ok ⟨s⟩
  | none => .error "API key is required for Shoutbox"

/-- `new Shoutbox(apiKey)` in the current `index.ts` (unnamed part
005): only `undefined` falls back to the environment, then
`if (!key || key.trim() === "") throw ...`. -/
def Shoutbox.make (apiKey : JsArg) (envKey : Option String) : Except String Shoutbox :=
  let key : JsArg :=
    match apiKey with
    | .undef =>
      match envKey with
      | some s => .str s
      | none => .undef
    | x => x
  match key with
  | .str s => if jsTrim s = "" then .error "API key is required for Shoutbox" else .ok ⟨s⟩
  | _ => .error "API key is required for Shoutbox"

/-- The nodemailer transport configuration built by the `SMTPClient`
constructor. -/
structure TransportConfig where
  host : String
  port : Nat
  secure : Bool
  user : String
  pass : String
  rejectUnauthorized : Bool
deriving DecidableEq, Repr

/-- The SMTP dispatcher: holds the transport configuration. -/
structure SMTPClient where
  transporter : TransportConfig
deriving DecidableEq, Repr

/-- `new SMTPClient(apiKey)` in `src/smtp.ts`: builds the nodemailer
transport with fixed host/port/user and the key as password.  The
constructor performs no validation of the key, so it always succeeds
(it is given an `Except` result type only so that its failure behavior
is comparable with the HTTP constructor's). -/
def SMTPClient.make (apiKey : String) : Except String SMTPClient :=
  .ok ⟨{ host := "mail.shoutbox.net", port := 587, secure := false,
         user := "shoutbox", pass := apiKey, rejectUnauthorized := true }⟩

/-! ## Regex-replacement scanners

The source uses a handful of `String.prototype.replace` calls with
fixed regexes.  Each is embedded as a left-to-right scan over the
character list, which matches the regex engine's leftmost-match,
non-overlapping semantics for these patterns. -/

/-- Split a character list at the first `'>'`: `some` of the suffix
after it, or `none` when there is no `'>'` (so a pattern ending in
`[^>]*>` cannot match). -/
def splitAtGt (l : List Char) : Option (List Char) :=
  match l.dropWhile (fun c => c ≠ '>') with
  | [] => none
  | _ :: t => some t

/-- `stripHtml` body: the global replace of `/<[^>]*>/` with `""`.
At each `'<'` with a later `'>'`, drop through that `'>'` and continue;
a `'<'` with no later `'>'` cannot match (nor can anything after it),
so the remainder is kept verbatim.  The `fuel` argument only bounds the
recursion (each step consumes at least one character, so any
`fuel ≥ l.length` computes the full scan); it keeps the definition
structurally recursive, hence reducible inside the kernel. -/
def stripHtmlFuel : Nat → List Char → List Char
  | 0, l => l
  | _, [] => []
  | fuel + 1, c :: rest =>
    if c = '<' then
      match splitAtGt rest with
      | some t => stripHtmlFuel fuel t
      | none => c :: rest
    else
      c :: stripHtmlFuel fuel rest

/-- The scan of `/<[^>]*>/g` at full fuel. -/
def stripHtmlList (l : List Char) : List Char :=
  stripHtmlFuel l.length l

/-- `SMTPClient.stripHtml`: `html.replace(/<[^>]*>/g, '')`. -/
def SMTPClient.stripHtml (html : String) : String :=
  String.mk (stripHtmlList html.data)

/-- Case-insensitive literal prefix match: `some` of the remainder
after the pattern, `none` when the pattern does not match here. -/
def ciPrefix : List Char → List Char → Option (List Char)
  | [], l => some l
  | _ :: _, [] => none
  | p :: ps, c :: cs => if p.toLower = c.toLower then ciPrefix ps cs else none

/-- The literal in the regex `/<!DOCTYPE[^>]*>/i`. -/
def doctypePat : List Char := ['<', '!', 'd', 'o', 'c', 't', 'y', 'p', 'e']

/-- First (non-global) replacement of `/<!DOCTYPE[^>]*>/i` with `""`:
at the first case-insensitive `<!DOCTYPE` followed by a `'>'`, remove
through that `'>'` and keep the rest untouched. -/
def removeDoctypeList : List Char → List Char
  | [] => []
  | c :: rest =>
    match ciPrefix doctypePat (c :: rest) with
    | some r1 =>
      match splitAtGt r1 with
      | some t => t
      | none => c :: removeDoctypeList rest
    | none => c :: removeDoctypeList rest

/-- The literal in the regex `/<\/?html[^>]*>/gi`. -/
def htmlPat : List Char := ['h', 't', 'm', 'l']

/-- Skip one leading `'/'` (the `\/?` part of the envelope regex). -/
def dropSlash : List Char → List Char
  | '/' :: r => r
  | r => r

/-- Match the `\/?html` part of the envelope regex at the head of a
list: skip one optional `'/'`, then a case-insensitive `html`. -/
def ciPrefixEnv (l : List Char) : Option (List Char) :=
  ciPrefix htmlPat (dropSlash l)

/-- The scan of `/<\/?html[^>]*>/gi` (global, case-insensitive), with
the same fuel convention as `stripHtmlFuel`. -/
def stripHtmlEnvFuel : Nat → List Char → List Char
  | 0, l => l
  | _, [] => []
  | fuel + 1, c :: rest =>
    if c = '<' then
      match ciPrefixEnv rest with
      | some r2 =>
        match splitAtGt r2 with
        | some t => stripHtmlEnvFuel fuel t
        | none => c :: stripHtmlEnvFuel fuel rest
      | none => c :: stripHtmlEnvFuel fuel rest
    else
      c :: stripHtmlEnvFuel fuel rest

/-- Global replacement of `/<\/?html[^>]*>/gi` with `""`. -/
def stripHtmlEnvList (l : List Char) : List Char :=
  stripHtmlEnvFuel l.length l

/-- Global replacement of `/\$<|>\$\//g` with `"<"`: each `$<` and each
`>$/` becomes a single `<`. -/
def markersAList : List Char → List Char
  | '$' :: '<' :: rest => '<' :: markersAList rest
  | '>' :: '$' :: '/' :: rest => '<' :: markersAList rest
  | c :: rest => c :: markersAList rest
  | [] => []

/-- Global replacement of `/\$|\/\$/g` with `""`: each `$` is removed,
and a `/` immediately before a `$` is removed with it. -/
def markersBList : List Char → List Char
  | '$' :: rest => markersBList rest
  | '/' :: '$' :: rest => markersBList rest
  | c :: rest => c :: markersBList rest
  | [] => []

/-- `Shoutbox.cleanRenderedHtml` from the current `index.ts`: strip the
first DOCTYPE declaration, all `<html...>` / `</html...>` envelope
tags, turn `$<` / `>$/` markers into `<`, remove remaining `$` and
`/$` markers, then trim. -/
def Shoutbox.cleanRenderedHtml (html : String) : String :=
  jsTrim (String.mk (markersBList (markersAList
    (stripHtmlEnvList (removeDoctypeList html.data)))))

/-! ## JSON serialization (`JSON.stringify`)

`JSON.stringify` emits an object's own enumerable properties in
insertion order and skips `undefined`-valued ones.  The embedding
serializes in the declaration order of the `EmailOptions` /
`Attachment` interfaces in `types.ts` (the order a caller writing the
literal in interface order produces), omitting `none` fields.  No claim
depends on the key order, only on key presence and total length. -/

/-- Lower-case hex digit. -/
def hexDigit (n : Nat) : Char := "0123456789abcdef".data.getD n '0'

/-- `JSON.stringify`'s escaping of one character inside a string
literal. -/
def jsonEscapeChar (c : Char) : List Char :=
  if c = '"' then ['\\', '"']
  else if c = '\\' then ['\\', '\\']
  else if c = '\x08' then ['\\', 'b']
  else if c = '\x0c' then ['\\', 'f']
  else if c = '\n' then ['\\', 'n']
  else if c = '\r' then ['\\', 'r']
  else if c = '\t' then ['\\', 't']
  else if c.toNat < 32 then
    ['\\', 'u', '0', '0', hexDigit (c.toNat / 16), hexDigit (c.toNat % 16)]
  else [c]

/-- Escape the characters of a string for a JSON string literal. -/
def jsonEscape (s : String) : List Char :=
  (s.data.map jsonEscapeChar).flatten

/-- A JSON string literal, as characters. -/
def jsonStr (s : String) : List Char :=
  '"' :: (jsonEscape s ++ ['"'])

/-- A JSON object from already-serialized member values. -/
def jsonObj (fields : List (String × List Char)) : List Char :=
  '\x7b' :: (List.intercalate [','] (fields.map (fun kv => jsonStr kv.1 ++ ':' :: kv.2)) ++ ['\x7d'])

/-- A JSON array from already-serialized elements. -/
def jsonArr (elems : List (List Char)) : List Char :=
  '[' :: (List.intercalate [','] elems ++ [']'])

/-- A member that is omitted when the field is `undefined`. -/
def optField (k : String) : Option (List Char) → List (String × List Char)
  | none => []
  | some v => [(k, v)]

/-- `string | string[]` serializes as a string or an array. -/
def jsonRecipients : Recipients → List Char
  | .single s => jsonStr s
  | .many l => jsonArr (l.map jsonStr)

/-- Content serialization: a base64 string as a JSON string; a raw
`Buffer` via its `toJSON` form. -/
def jsonContent : Content → List Char
  | .base64Text s => jsonStr s
  | .rawBytes b =>
    jsonObj [("type", jsonStr "Buffer"), ("data", jsonArr (b.map (fun n => (toString n).data)))]

/-- Serialize one attachment object. -/
def jsonAttachment (a : Attachment) : List Char :=
  jsonObj (optField "filename" (a.filename.map jsonStr)
    ++ [("filepath", jsonStr a.filepath)]
    ++ optField "contentType" (a.contentType.map jsonStr)
    ++ optField "content" (a.content.map jsonContent))

/-- Serialize a `Record<string, string>`. -/
def jsonStrMap (m : List (String × String)) : List Char :=
  jsonObj (m.map (fun kv => (kv.1, jsonStr kv.2)))

/-- The members of `JSON.stringify(options)`. -/
def jsonFields (c : Collab) (o : EmailOptions) : List (String × List Char) :=
  [("from", jsonStr o.fromAddr)]
  ++ optField "name" (o.name.map jsonStr)
  ++ [("to", jsonRecipients o.toAddr), ("subject", jsonStr o.subject)]
  ++ optField "html" (o.html.map jsonStr)
  ++ optField "text" (o.text.map jsonStr)
  ++ optField "react" (o.react.map (fun t => (c.templateJson t).data))
  ++ optField "attachments" (o.attachments.map (fun l => jsonArr (l.map jsonAttachment)))
  ++ optField "replyTo" (o.replyTo.map jsonStr)
  ++ optField "tags" (o.tags.map jsonStrMap)
  ++ optField "headers" (o.headers.map jsonStrMap)
  ++ optField "cc" (o.cc.map jsonRecipients)

/-- `JSON.stringify(options)` (the `emailContent` of `send`). -/
def stringifyOptions (c : Collab) (o : EmailOptions) : String :=
  String.mk (jsonObj (jsonFields c o))

/-! ## JS object semantics for header records -/

/-- Assigning `m[k] = v` on a JS object: replace the value in place
when the key exists, else append the new entry. -/
def objInsert (m : List (String × String)) (kv : String × String) : List (String × String) :=
  if m.any (fun p => p.1 = kv.1) then
    m.map (fun p => if p.1 = kv.1 then (p.1, kv.2) else p)
  else m ++ [kv]

/-- Build a JS object by assigning a list of entries in order (the
`Object.entries(...).forEach(... => extraHeaders[key] = value)` loop,
and the semantics of object spread). -/
def objOfEntries (l : List (String × String)) : List (String × String) :=
  l.foldl objInsert []

/-- Property lookup on a JS object. -/
def objGet (m : List (String × String)) (k : String) : Option String :=
  (m.find? (fun p => p.1 = k)).map Prod.snd

/-! ## HTTP dispatcher (`Shoutbox.send`)

Follows the current `index.ts` (unnamed part 005); `src/src/index.ts`
is an earlier revision of the same function that differs only in
lacking the template-rendering step and in logging the payload, and it
agrees on everything the claims about the HTTP path state (header
extraction, attachment handling, the size gate, the `fetch` response
handling, and `Promise.all` aggregation). -/

/-- Errors thrown by the HTTP `send` path. -/
inductive SendError where
  | fileReadError (path : String)
  | bodyTooLarge (len : Nat)
  | fetchError (e : String)
deriving DecidableEq, Repr

/-- Header extraction (`if (options.headers) ... delete options.headers`):
copy the entries into a side object and remove the field. -/
def extractHeaders (o : EmailOptions) : EmailOptions × List (String × String) :=
  match o.headers with
  | some hs => ({ o with headers := none }, objOfEntries hs)
  | none => (o, [])

/-- The template step of the current HTTP `send`: render and clean,
overwriting `html`. -/
def applyReactHttp (c : Collab) (o : EmailOptions) : EmailOptions :=
  match o.react with
  | some t => { o with html := some (Shoutbox.cleanRenderedHtml (c.render t)) }
  | none => o

/-- Step 1 of the attachment loop (`if (!e.content) e.content = await
fs.promises.readFile(e.filepath)`): keep a truthy `content`, otherwise
read the file; the second component records which paths were read.
`none` is a failed read. -/
def resolveContent (c : Collab) (e : Attachment) : Option (Content × List String) :=
  match e.content, contentTruthy e.content with
  | some ct, true => some (ct, [])
  | _, _ => (c.fs e.filepath).map (fun b => (Content.rawBytes b, [e.filepath]))

/-- The HTTP transport's required content representation
(`if (typeof e.content === "object") e.content = e.content.toString("base64")`):
raw bytes become base64 text, a string stays as it is. -/
def httpContentNormalize : Content → Content
  | .rawBytes b => .base64Text (String.mk (encode64 b))
  | ct => ct

/-- The SMTP transport's required content representation
(`typeof content === 'string' ? Buffer.from(content, 'base64') : content`):
a string is base64-decoded to bytes, bytes stay as they are. -/
def smtpContentNormalize : Content → List Nat
  | .base64Text s => decode64 s
  | .rawBytes b => b

/-- The body of the HTTP attachment loop for one attachment: resolve
content, default the filename from the path, default the content type
from a MIME lookup, and base64-encode raw bytes. -/
def normalizeAttachmentHttp (c : Collab) (e : Attachment) :
    Except SendError (Attachment × List String) :=
  match resolveContent c e with
  | none => .error (.fileReadError e.filepath)
  | some (content0, reads) =>
    let filename := jsOrStr e.filename (basename e.filepath)
    let contentType :=
      jsOrStr e.contentType (jsOrStr (c.mimeLookup filename) "application/octet-stream")
    .ok ({ filename := some filename, filepath := e.filepath,
           contentType := some contentType,
           content := some (httpContentNormalize content0) }, reads)

/-- The HTTP attachment loop over the whole list (sequential, aborting
at the first failed read). -/
def normalizeAttachmentsHttp (c : Collab) :
    List Attachment → Except SendError (List Attachment × List String)
  | [] => .ok ([], [])
  | e :: rest =>
    match normalizeAttachmentHttp c e with
    | .error err => .error err
    | .ok (e1, r1) =>
      match normalizeAttachmentsHttp c rest with
      | .error err => .error err
      | .ok (l, r2) => .ok (e1 :: l, r1 ++ r2)

/-- The normalization prefix of the HTTP `send` (everything before
`JSON.stringify`): extract headers, render the template, resolve
attachments.  Returns the normalized options, the extracted headers,
and the file paths read. -/
def normalizeOptionsHttp (c : Collab) (options : EmailOptions) :
    Except SendError (EmailOptions × List (String × String) × List String) :=
  let (o1, extra) := extractHeaders options
  let o2 := applyReactHttp c o1
  match o2.attachments with
  | none => .ok (o2, extra, [])
  | some l =>
    match normalizeAttachmentsHttp c l with
    | .error err => .error err
    | .ok (l1, reads) => .ok ({ o2 with attachments := some l1 }, extra, reads)

/-- The fixed endpoint (`https://api.shoutbox.net/send`). -/
def API_ENDPOINT : String := "https://api.shoutbox.net/send"

/-- The built-in request headers of the `fetch` call. -/
def defaultHeaders (sb : Shoutbox) : List (String × String) :=
  [("Authorization", "Bearer " ++ sb.apiKey), ("Content-Type", "application/json")]

/-- The header object literal `\x7b Authorization, Content-Type,
...extraHeaders \x7d`: spread assigns the extracted entries over the
defaults, so a colliding custom key overwrites the default in place. -/
def requestHeaders (sb : Shoutbox) (extra : List (String × String)) :
    List (String × String) :=
  extra.foldl objInsert (defaultHeaders sb)

/-- The request handed to `fetch`. -/
def buildRequest (sb : Shoutbox) (extra : List (String × String)) (body : String) :
    HttpRequest :=
  { url := API_ENDPOINT, method := "POST", headers := requestHeaders sb extra, body := body }

deriving instance DecidableEq for Except

/-- One `console.log` / `console.error` call with its first (string)
argument and its second argument. -/
inductive LogEntry where
  | logged (label : String) (arg : String)
  | errorLogged (label : String) (arg : String)
deriving DecidableEq, Repr

/-- What one HTTP `send` call did: the network request it issued (if
any), the console output, and the promise's outcome (`.error` =
rejected / thrown). -/
structure SendTrace where
  request : Option HttpRequest
  logs : List LogEntry
  result : Except SendError Unit
deriving DecidableEq, Repr

/-- The size ceiling `1024 * 1024` of the length check. -/
def MAX_BODY : Nat := 1024 * 1024

/-- `Shoutbox.send`: normalize, serialize, enforce the size gate, then
`fetch`; `response.ok` logs the JSON body and resolves, a non-2xx
response logs the response text and also resolves, and a thrown fetch
error is logged and re-thrown. -/
def Shoutbox.send (sb : Shoutbox) (c : Collab) (options : EmailOptions) : SendTrace :=
  match normalizeOptionsHttp c options with
  | .error err => { request := none, logs := [], result := .error err }
  | .ok (n, extra, _reads) =>
    let emailContent := stringifyOptions c n
    if emailContent.length > MAX_BODY then
      { request := none, logs := [],
        result := .error (.bodyTooLarge emailContent.length) }
    else
      let req := buildRequest sb extra emailContent
      match c.fetch req with
      | .ok body =>
        { request := some req, logs := [.logged "Email sent successfully:" body],
          result := .ok () }
      | .httpError text =>
        { request := some req, logs := [.errorLogged "Failed to send email:" text],
          result := .ok () }
      | .networkError e =>
        { request := some req, logs := [.errorLogged "Error during fetch operation:" e],
          result := .error (.fetchError e) }

/-- `sendEmail` delegates to `send`. -/
def Shoutbox.sendEmail (sb : Shoutbox) (c : Collab) (options : EmailOptions) : SendTrace :=
  Shoutbox.send sb c options

/-- `Promise.all` over already-determined outcomes: fulfilled with the
list of values when all fulfil, rejected with the first rejection
otherwise (in this synchronous embedding the first in list order). -/
def promiseAll {E A : Type} : List (Except E A) → Except E (List A)
  | [] => .ok []
  | .ok a :: rest => (promiseAll rest).map (fun l => a :: l)
  | .error e :: _ => .error e

/-- `sendEmails`: `Promise.all(options.map(option => this.send(option)))`.
Every element's `send` runs (first component); the aggregate promise is
their `Promise.all` (second component). -/
def Shoutbox.sendEmails (sb : Shoutbox) (c : Collab) (options : List EmailOptions) :
    List SendTrace × Except SendError (List Unit) :=
  let traces := options.map (Shoutbox.send sb c)
  (traces, promiseAll (traces.map (fun t => t.result)))

/-! ## SMTP dispatcher (`SMTPClient.sendEmail`) -/

/-- Errors thrown by the SMTP path. -/
inductive SmtpError where
  | fileReadError (path : String)
  | mailError (e : String)
deriving DecidableEq, Repr

/-- The template step of the SMTP path:
`options.html = await renderAsync(options.react)` — the rendered string
is used as-is (no artifact cleaning on this path). -/
def applyReactSmtp (c : Collab) (o : EmailOptions) : EmailOptions :=
  match o.react with
  | some t => { o with html := some (c.render t) }
  | none => o

/-- One iteration of the SMTP attachment loop: resolve content (same
truthiness test as HTTP), default filename and content type, and
convert a base64 string to raw bytes (`Buffer.from(content, 'base64')`)
— bytes stay bytes. -/
def normalizeAttachmentSmtp (c : Collab) (a : Attachment) :
    Option (MailAttachment × List String) :=
  (resolveContent c a).map (fun p =>
    let filename := jsOrStr a.filename (basename a.filepath)
    let contentType :=
      jsOrStr a.contentType (jsOrStr (c.mimeLookup filename) "application/octet-stream")
    ({ filename := filename, content := smtpContentNormalize p.1,
       contentType := contentType }, p.2))

/-- The SMTP attachment loop over the list. -/
def normalizeAttachmentsSmtp (c : Collab) :
    List Attachment → Except SmtpError (List MailAttachment × List String)
  | [] => .ok ([], [])
  | a :: rest =>
    match normalizeAttachmentSmtp c a with
    | none => .error (.fileReadError a.filepath)
    | some (m, r1) =>
      match normalizeAttachmentsSmtp c rest with
      | .error err => .error err
      | .ok (l, r2) => .ok (m :: l, r1 ++ r2)

/-- `options.name ? `name <from>` : options.from` (with `""` falsy). -/
def smtpFrom (o : EmailOptions) : String :=
  match o.name with
  | some n => if n = "" then o.fromAddr else n ++ " <" ++ o.fromAddr ++ ">"
  | none => o.fromAddr

/-- `Array.isArray(x) ? x.join(', ') : x`. -/
def joinRecipients : Recipients → String
  | .single s => s
  | .many l => String.intercalate ", " l

/-- `options.cc ? (Array.isArray(...) ? join : cc) : undefined`
(an empty-string `cc` is falsy and becomes `undefined`; an array is an
object and is always truthy). -/
def smtpCc : Option Recipients → Option String
  | none => none
  | some (.single s) => if s = "" then none else some s
  | some (.many l) => some (String.intercalate ", " l)

/-- The `text` field:
`options.text || (options.html ? this.stripHtml(options.html) : undefined)`. -/
def smtpText (o : EmailOptions) : Option String :=
  jsOrOptStr o.text
    (match o.html with
     | some h => if h = "" then none else some (SMTPClient.stripHtml h)
     | none => none)

/-- Lines 28–58 of `smtp.ts`: render the template, process attachments,
and assemble `mailOptions`. -/
def SMTPClient.buildMailOptions (c : Collab) (options : EmailOptions) :
    Except SmtpError MailOptions :=
  let options := applyReactSmtp c options
  match normalizeAttachmentsSmtp c (options.attachments.getD []) with
  | .error err => .error err
  | .ok (atts, _reads) =>
    .ok { fromAddr := smtpFrom options,
          toAddr := joinRecipients options.toAddr,
          cc := smtpCc options.cc,
          subject := options.subject,
          html := options.html,
          text := smtpText options,
          replyTo := options.replyTo,
          attachments := atts,
          headers := options.headers.getD [] }

/-- What one SMTP `sendEmail` call did: the `mailOptions` handed to
nodemailer (if the call got that far) and the outcome (errors are
logged and re-thrown by the `catch` block, so they propagate). -/
structure SmtpTrace where
  mailOptions : Option MailOptions
  result : Except SmtpError Unit
deriving DecidableEq, Repr

/-- `SMTPClient.sendEmail`: build `mailOptions`, submit via the
transporter; any failure propagates. -/
def SMTPClient.sendEmail (_cl : SMTPClient) (c : Collab) (options : EmailOptions) :
    SmtpTrace :=
  match SMTPClient.buildMailOptions c options with
  | .error e => { mailOptions := none, result := .error e }
  | .ok mo =>
    match c.sendMail mo with
    | .ok _ => { mailOptions := some mo, result := .ok () }
    | .error e => { mailOptions := some mo, result := .error (.mailError e) }

/-! ## Concrete fixtures for witnesses and counterexamples -/

/-- A tiny filesystem: only `ok.txt` exists, holding the bytes of
`"hi"`. -/
def testFs : String → Option (List Nat) :=
  fun p => if p = "ok.txt" then some [104, 105] else none

/-- A concrete collaborator bundle whose `fetch` always reports a 2xx
response. -/
def testCollab : Collab :=
  { fs := testFs,
    mimeLookup := fun f => if f = "a.png" then some "image/png" else none,
    render := fun _ => "<!DOCTYPE html><html>$Hello$</html>",
    templateJson := fun _ => "null",
    fetch := fun _ => .ok "sent",
    sendMail := fun _ => .ok () }

/-- The same collaborators, but the service rejects every request with
a non-2xx response. -/
def rejectCollab : Collab :=
  { testCollab with fetch := fun _ => .httpError "invalid request" }

/-- A plain valid options value. -/
def baseOpts : EmailOptions :=
  { fromAddr := "from@example.com", name := none, toAddr := .single "to@example.com",
    subject := "Hello", html := some "<h1>Hi</h1><p>Bye</p>", text := none,
    react := none, attachments := none, replyTo := none, tags := none,
    headers := none, cc := none }

/-- An attachment whose file is missing from `testFs`, so resolving it
fails. -/
def badAttachment : Attachment :=
  { filename := none, filepath := "missing.bin", contentType := none, content := none }

/-- An options value whose send fails locally (attachment read error). -/
def badOpts : EmailOptions := { baseOpts with attachments := some [badAttachment] }

/-- An attachment with inline base64 content and all fields supplied. -/
def inlineAtt : Attachment :=
  { filename := some "f.bin", filepath := "unused.bin",
    contentType := some "application/x-test", content := some (.base64Text "aGk=") }

/-- An attachment whose `content` is the empty string — set, but falsy
in JavaScript. -/
def emptyContentAtt : Attachment :=
  { filename := some "f.bin", filepath := "ok.txt",
    contentType := some "application/x-test", content := some (.base64Text "") }

/-- An attachment with no filename and an empty filepath. -/
def emptyPathAtt : Attachment :=
  { filename := none, filepath := "", contentType := none,
    content := some (.rawBytes [1]) }

/-- An attachment resolved by reading `ok.txt` and defaulting every
optional field. -/
def readAtt : Attachment :=
  { filename := none, filepath := "ok.txt", contentType := none, content := none }

/-- Options carrying a template value. -/
def reactOpts : EmailOptions := { baseOpts with react := some ⟨0⟩ }

/-- Options with a custom header that does not collide with the
built-in request headers. -/
def hdrOpts : EmailOptions := { baseOpts with headers := some [("X-A", "1")] }

/-- Options whose custom headers collide with both built-in request
headers. -/
def ovrOpts : EmailOptions :=
  { baseOpts with
    headers := some [("Authorization", "custom-token"), ("Content-Type", "text/plain")] }

/-- `k` repetitions of `'a'`. -/
def bigStr (k : Nat) : String := String.mk (List.replicate k 'a')

/-- A minimal options value with an `html` body of `k` characters; its
JSON serialization has length `45 + k`. -/
def bigOpts (k : Nat) : EmailOptions :=
  { fromAddr := "f", name := none, toAddr := .single "t", subject := "s",
    html := some (bigStr k), text := none, react := none, attachments := none,
    replyTo := none, tags := none, headers := none, cc := none }

/-! ## Structural lemmas about the HTTP normalization pipeline -/

theorem extractHeaders_fst_headers (o : EmailOptions) :
    (extractHeaders o).1.headers = none := by
  cases h : o.headers <;> simp [extractHeaders, h]

theorem extractHeaders_fst_react (o : EmailOptions) :
    (extractHeaders o).1.react = o.react := by
  cases h : o.headers <;> simp [extractHeaders, h]

theorem extractHeaders_of_some (o : EmailOptions) (hs : List (String × String))
    (h : o.headers = some hs) :
    extractHeaders o = ({ o with headers := none }, objOfEntries hs) := by
  simp [extractHeaders, h]

theorem applyReactHttp_headers (c : Collab) (o : EmailOptions) :
    (applyReactHttp c o).headers = o.headers := by
  cases h : o.react <;> simp [applyReactHttp, h]

theorem applyReactHttp_html_of_react (c : Collab) (o : EmailOptions) (t : Template)
    (h : o.react = some t) :
    (applyReactHttp c o).html = some (Shoutbox.cleanRenderedHtml (c.render t)) := by
  simp [applyReactHttp, h]

theorem normalizeOptionsHttp_ok (c : Collab) (o n : EmailOptions)
    (extra : List (String × String)) (reads : List String)
    (h : normalizeOptionsHttp c o = .ok (n, extra, reads)) :
    extra = (extractHeaders o).2 ∧ n.headers = none
      ∧ n.html = (applyReactHttp c (extractHeaders o).1).html := by
  unfold normalizeOptionsHttp at h
  cases he : extractHeaders o with
  | mk o1 ex =>
    rw [he] at h
    have h1 : o1.headers = none := by
      have := extractHeaders_fst_headers o
      rw [he] at this
      exact this
    dsimp only at h
    cases ha : (applyReactHttp c o1).attachments with
    | none =>
      rw [ha] at h
      dsimp only at h
      cases h
      exact ⟨rfl, by rw [applyReactHttp_headers, h1], rfl⟩
    | some l =>
      rw [ha] at h
      dsimp only at h
      cases hl : normalizeAttachmentsHttp c l with
      | error err => rw [hl] at h; cases h
      | ok p =>
        cases p with
        | mk l1 rds =>
          rw [hl] at h
          dsimp only at h
          cases h
          refine ⟨rfl, ?_, rfl⟩
          show (applyReactHttp c o1).headers = none
          rw [applyReactHttp_headers, h1]

/-! ## C4 — constructor credential validation -/

/-- C4 (amended): constructing the HTTP dispatcher with an empty-string
or absent credential and no environment fallback fails immediately with
a configuration error (in both revisions of the constructor), but the
SMTP dispatcher's constructor performs no credential validation at all:
it succeeds for every key, including the empty string. -/
theorem claim_C4_constructor_validation :
    ∀ (env : Option String) (s : String),
      Shoutbox.make .undef none = .error "API key is required for Shoutbox"
      ∧ Shoutbox.make .null env = .error "API key is required for Shoutbox"
      ∧ Shoutbox.make (.str "") env = .error "API key is required for Shoutbox"
      ∧ Shoutbox.makeOld .undef none = .error "API key is required for Shoutbox"
      ∧ Shoutbox.makeOld .null none = .error "API key is required for Shoutbox"
      ∧ Shoutbox.makeOld (.str "") none = .error "API key is required for Shoutbox"
      ∧ SMTPClient.make s =
          .ok ⟨{ host := "mail.shoutbox.net", port := 587, secure := false,
                 user := "shoutbox", pass := s, rejectUnauthorized := true }⟩ := by
  intro env s
  exact ⟨rfl, rfl, rfl, rfl, rfl, rfl, rfl⟩

/-- C4 counterexample: constructing the SMTP dispatcher with the empty
string as credential does not fail — it returns a client whose
transport holds the empty password. -/
theorem claim_C4_counterexample :
    SMTPClient.make "" =
      .ok ⟨{ host := "mail.shoutbox.net", port := 587, secure := false,
             user := "shoutbox", pass := "", rejectUnauthorized := true }⟩ := rfl

/-! ## C2 — non-2xx response handling on the HTTP path -/

/-- C2 (amended): when `fetch` returns a non-2xx response, the HTTP
`send` captures the response text and reports it on the error console,
but then resolves successfully: the caller receives no failure value
for a remote rejection (no exception is thrown either — only a
network-level `fetch` failure is re-thrown), so the caller cannot
distinguish a remote rejection from a success. -/
theorem claim_C2_non2xx_logged_not_surfaced
    (sb : Shoutbox) (c : Collab) (o n : EmailOptions)
    (extra : List (String × String)) (reads : List String) (txt : String)
    (hn : normalizeOptionsHttp c o = .ok (n, extra, reads))
    (hlen : ¬ MAX_BODY < (stringifyOptions c n).length)
    (hf : c.fetch (buildRequest sb extra (stringifyOptions c n)) = .httpError txt) :
    Shoutbox.send sb c o =
      { request := some (buildRequest sb extra (stringifyOptions c n)),
        logs := [.errorLogged "Failed to send email:" txt],
        result := .ok () } := by
  unfold Shoutbox.send
  rw [hn]
  dsimp only
  rw [if_neg hlen, hf]

/-- Witness for C2: with collaborators whose service rejects every
request, a concrete send issues the request, logs the rejection text,
and still resolves with a unit value. -/
theorem claim_C2_witness :
    Shoutbox.send ⟨"k"⟩ rejectCollab baseOpts =
      { request := some (buildRequest ⟨"k"⟩ [] (stringifyOptions rejectCollab baseOpts)),
        logs := [.errorLogged "Failed to send email:" "invalid request"],
        result := .ok () } := by
  exact claim_C2_non2xx_logged_not_surfaced ⟨"k"⟩ rejectCollab baseOpts baseOpts
    [] [] "invalid request" rfl (by decide) rfl

/-- Counterexample for C2 as stated: the caller-visible outcome of a
send whose request was rejected with a non-2xx response is `.ok ()`,
identical to the outcome of a send that succeeded — nothing surfaced
to the caller distinguishes the two. -/
theorem claim_C2_counterexample :
    (Shoutbox.send ⟨"k"⟩ rejectCollab baseOpts).result = .ok ()
      ∧ (Shoutbox.send ⟨"k"⟩ testCollab baseOpts).result = .ok () := by
  exact ⟨by decide, by decide⟩

/-! ## C8 — SMTP text fallback by tag stripping -/

/-- C8: on the SMTP path, when `text` is absent and `html` is present
(a truthy, non-empty string; `react` absent so `html` is the effective
body), the `text` handed to nodemailer is `html` with every substring
from a `'<'` through the next `'>'` removed (`stripHtml`'s regex
`/<[^>]*>/g` — a tag-stripping pass, not an HTML parser). -/
theorem claim_C8_smtp_text_fallback
    (c : Collab) (o : EmailOptions) (h : String) (mo : MailOptions)
    (ht : o.text = none) (hh : o.html = some h) (hne : h ≠ "") (hr : o.react = none)
    (hb : SMTPClient.buildMailOptions c o = .ok mo) :
    mo.text = some (SMTPClient.stripHtml h) := by
  unfold SMTPClient.buildMailOptions at hb
  have hre : applyReactSmtp c o = o := by
    unfold applyReactSmtp
    rw [hr]
  rw [hre] at hb
  dsimp only at hb
  cases hna : normalizeAttachmentsSmtp c (o.attachments.getD []) with
  | error e => rw [hna] at hb; cases hb
  | ok p =>
    cases p with
    | mk atts rds =>
      rw [hna] at hb
      dsimp only at hb
      cases hb
      show smtpText o = some (SMTPClient.stripHtml h)
      unfold smtpText jsOrOptStr
      rw [ht, hh]
      simp [strTruthy, hne]

/-- Witness for C8: `html = "<h1>Hi</h1><p>Bye</p>"` and no `text`
yields the derived text `"HiBye"`. -/
theorem claim_C8_witness :
    (SMTPClient.buildMailOptions testCollab baseOpts).map (fun mo => mo.text)
      = .ok (some "HiBye") := by
  cases hb : SMTPClient.buildMailOptions testCollab baseOpts with
  | error e =>
    have hok : (SMTPClient.buildMailOptions testCollab baseOpts).isOk = true := by decide
    rw [hb] at hok
    cases hok
  | ok mo =>
    have hx := claim_C8_smtp_text_fallback testCollab baseOpts "<h1>Hi</h1><p>Bye</p>"
      mo rfl rfl (by decide) rfl hb
    rw [Except.map, hx]
    decide

/-! ## Helper lemmas about JS-falsiness defaulting -/

theorem jsOrStr_of_falsy (x : Option String) (d : String) (h : strTruthy x = false) :
    jsOrStr x d = d := by
  cases x with
  | none => rfl
  | some s =>
    have hs : s = "" := by
      by_contra hne
      simp [strTruthy, hne] at h
    simp [jsOrStr, hs]

theorem jsOrStr_ne_empty (x : Option String) (d : String) (hd : d ≠ "") :
    jsOrStr x d ≠ "" := by
  cases x with
  | none => exact hd
  | some s =>
    by_cases hs : s = "" <;> simp [jsOrStr, hs, hd]

/-! ## C5 — inline attachment content round-trip -/

/-- C5 (amended): for every attachment whose `content` is set *and
truthy* (a non-empty base64 string, or any `Buffer` — even an empty
one, since a `Buffer` is an object), neither transport reads the
filepath (the read list is empty), and the outgoing payload carries
exactly the transport's required encoding of the supplied content:
the supplied base64 text itself on the HTTP path, and the supplied
bytes themselves on the SMTP path (the cross cases being base64
encoding/decoding).  An attachment whose `content` is set to the empty
string is falsy and is re-read from `filepath` (see the
counterexample), which is the one correction to the claim. -/
theorem claim_C5_inline_content (c : Collab) (e : Attachment) (ct : Content)
    (hc : e.content = some ct) (htr : contentTruthy e.content = true) :
    normalizeAttachmentHttp c e =
        .ok ({ filename := some (jsOrStr e.filename (basename e.filepath)),
               filepath := e.filepath,
               contentType := some (jsOrStr e.contentType
                 (jsOrStr (c.mimeLookup (jsOrStr e.filename (basename e.filepath)))
                   "application/octet-stream")),
               content := some (httpContentNormalize ct) }, [])
      ∧ normalizeAttachmentSmtp c e =
          some ({ filename := jsOrStr e.filename (basename e.filepath),
                  content := smtpContentNormalize ct,
                  contentType := jsOrStr e.contentType
                    (jsOrStr (c.mimeLookup (jsOrStr e.filename (basename e.filepath)))
                      "application/octet-stream") }, [])
      ∧ (∀ s, ct = .base64Text s → httpContentNormalize ct = .base64Text s)
      ∧ (∀ b, ct = .rawBytes b → smtpContentNormalize ct = b) := by
  have hres : resolveContent c e = some (ct, []) := by
    rw [hc] at htr
    simp [resolveContent, hc, htr]
  refine ⟨?_, ?_, ?_, ?_⟩
  · simp [normalizeAttachmentHttp, hres]
  · simp [normalizeAttachmentSmtp, hres]
  · intro s hs; rw [hs]; rfl
  · intro b hb; rw [hb]; rfl

/-- Witness for C5: supplying `"aGk="` (the base64 of `"hi"`) yields
exactly `"aGk="` in the HTTP payload and exactly the bytes `[104, 105]`
in the SMTP payload, with no file read on either path. -/
theorem claim_C5_witness :
    normalizeAttachmentHttp testCollab inlineAtt =
        .ok ({ filename := some "f.bin", filepath := "unused.bin",
               contentType := some "application/x-test",
               content := some (.base64Text "aGk=") }, [])
      ∧ normalizeAttachmentSmtp testCollab inlineAtt =
          some ({ filename := "f.bin", content := [104, 105],
                  contentType := "application/x-test" }, []) := by
  have h := claim_C5_inline_content testCollab inlineAtt (.base64Text "aGk=") rfl (by decide)
  refine ⟨?_, ?_⟩
  · rw [h.1]; decide
  · rw [h.2.1]; decide

/-- Counterexample for C5 as stated: an attachment whose `content` is
set to the empty string (`content` is "already set") is falsy under the
source's `if (!e.content)` test, so the filepath *is* read and the file
bytes replace the supplied content in the payload. -/
theorem claim_C5_counterexample :
    emptyContentAtt.content = some (.base64Text "")
      ∧ normalizeAttachmentHttp testCollab emptyContentAtt =
          .ok ({ filename := some "f.bin", filepath := "ok.txt",
                 contentType := some "application/x-test",
                 content := some (.base64Text "aGk=") }, ["ok.txt"]) := by
  exact ⟨rfl, by decide⟩

/-! ## C6 — attachment normalization defaults -/

/-- C6 (amended): when attachment normalization succeeds on either
transport path, the content is resolved (never absent), the content
type is non-empty — an absent (or empty, hence falsy) `contentType`
defaults to the MIME lookup result, falling back to
`application/octet-stream` — and an absent (or empty) `filename`
defaults to the last path segment of `filepath`.  The defaulted
filename equals `basename filepath`, which is empty for an empty
`filepath` (see the counterexample), so "non-empty filename" does not
hold in general. -/
theorem claim_C6_normalized_attachment_fields
    (c : Collab) (e : Attachment) (eh : Attachment) (rh : List String)
    (ms : MailAttachment) (rs : List String)
    (hH : normalizeAttachmentHttp c e = .ok (eh, rh))
    (hS : normalizeAttachmentSmtp c e = some (ms, rs)) :
    (eh.filename = some (jsOrStr e.filename (basename e.filepath))
      ∧ ms.filename = jsOrStr e.filename (basename e.filepath))
    ∧ (strTruthy e.filename = false →
        eh.filename = some (basename e.filepath) ∧ ms.filename = basename e.filepath)
    ∧ (∃ ct, eh.contentType = some ct ∧ ct ≠ "")
    ∧ ms.contentType ≠ ""
    ∧ (strTruthy e.contentType = false →
        eh.contentType = some (jsOrStr
          (c.mimeLookup (jsOrStr e.filename (basename e.filepath)))
          "application/octet-stream"))
    ∧ eh.content.isSome = true := by
  cases hres : resolveContent c e with
  | none =>
    unfold normalizeAttachmentHttp at hH
    rw [hres] at hH
    cases hH
  | some p =>
    cases p with
    | mk ct0 rds0 =>
      unfold normalizeAttachmentHttp at hH
      rw [hres] at hH
      dsimp only at hH
      cases hH
      unfold normalizeAttachmentSmtp at hS
      rw [hres] at hS
      dsimp only [Option.map] at hS
      cases hS
      refine ⟨⟨rfl, rfl⟩, ?_, ?_, ?_, ?_, rfl⟩
      · intro hfal
        rw [jsOrStr_of_falsy _ _ hfal]
        exact ⟨rfl, rfl⟩
      · exact ⟨_, rfl, jsOrStr_ne_empty _ _ (jsOrStr_ne_empty _ _ (by decide))⟩
      · exact jsOrStr_ne_empty _ _ (jsOrStr_ne_empty _ _ (by decide))
      · intro hfal
        rw [show (jsOrStr e.contentType (jsOrStr
            (c.mimeLookup (jsOrStr e.filename (basename e.filepath)))
            "application/octet-stream")) = jsOrStr
            (c.mimeLookup (jsOrStr e.filename (basename e.filepath)))
            "application/octet-stream" from jsOrStr_of_falsy _ _ hfal]

/-- Witness for C6: an attachment with every optional field absent,
resolved by reading `ok.txt`, ends up with the defaulted filename
`"ok.txt"` (= the last path segment), content type
`application/octet-stream`, and resolved content, on both paths. -/
theorem claim_C6_witness :
    ∃ eh rh ms rs,
      normalizeAttachmentHttp testCollab readAtt = .ok (eh, rh)
      ∧ normalizeAttachmentSmtp testCollab readAtt = some (ms, rs)
      ∧ eh.filename = some (basename "ok.txt")
      ∧ ms.filename = basename "ok.txt"
      ∧ ms.contentType ≠ ""
      ∧ eh.content.isSome = true := by
  refine ⟨{ filename := some "ok.txt", filepath := "ok.txt",
            contentType := some "application/octet-stream",
            content := some (.base64Text "aGk=") }, ["ok.txt"],
          { filename := "ok.txt", content := [104, 105],
            contentType := "application/octet-stream" }, ["ok.txt"], ?_⟩
  have hH : normalizeAttachmentHttp testCollab readAtt =
      .ok ({ filename := some "ok.txt", filepath := "ok.txt",
             contentType := some "application/octet-stream",
             content := some (.base64Text "aGk=") }, ["ok.txt"]) := by decide
  have hS : normalizeAttachmentSmtp testCollab readAtt =
      some ({ filename := "ok.txt", content := [104, 105],
              contentType := "application/octet-stream" }, ["ok.txt"]) := by decide
  have h := claim_C6_normalized_attachment_fields testCollab readAtt _ _ _ _ hH hS
  exact ⟨hH, hS, by rw [(h.2.1 (by decide)).1]; decide, by rw [(h.2.1 (by decide)).2]; decide,
         h.2.2.2.1, h.2.2.2.2.2⟩

/-- Counterexample for C6 as stated: with an empty `filepath` and no
supplied `filename`, normalization succeeds but the resulting filename
is the empty string — not non-empty as claimed. -/
theorem claim_C6_counterexample :
    ∃ eh, normalizeAttachmentHttp testCollab emptyPathAtt = .ok (eh, [])
      ∧ eh.filename = some "" := by
  exact ⟨{ filename := some "", filepath := "",
           contentType := some "application/octet-stream",
           content := some (.base64Text "AQ==") }, by decide, rfl⟩

/-! ## C9 — template rendering and artifact stripping -/

/-- C9 (amended): with a template value set, both dispatchers render
it to an HTML string that replaces any caller-supplied `html`; but the
artifact stripping (`cleanRenderedHtml`: the DOCTYPE declaration, the
`<html>` envelope tags, and the `$`-marker characters) is performed by
the **HTTP** path, and the **SMTP** path uses the rendered string
unmodified — the reverse of the claimed asymmetry. -/
theorem claim_C9_template_rendering
    (c : Collab) (o : EmailOptions) (t : Template) (hr : o.react = some t) :
    (∀ mo, SMTPClient.buildMailOptions c o = .ok mo → mo.html = some (c.render t))
    ∧ (∀ n extra reads, normalizeOptionsHttp c o = .ok (n, extra, reads) →
        n.html = some (Shoutbox.cleanRenderedHtml (c.render t))) := by
  constructor
  · intro mo hb
    unfold SMTPClient.buildMailOptions at hb
    have hre : applyReactSmtp c o = { o with html := some (c.render t) } := by
      unfold applyReactSmtp
      rw [hr]
    rw [hre] at hb
    dsimp only at hb
    cases hna : normalizeAttachmentsSmtp c (o.attachments.getD []) with
    | error err => rw [hna] at hb; cases hb
    | ok p =>
      cases p with
      | mk atts rds =>
        rw [hna] at hb
        dsimp only at hb
        cases hb
        rfl
  · intro n extra reads hn
    have h3 := (normalizeOptionsHttp_ok c o n extra reads hn).2.2
    rw [applyReactHttp_html_of_react c (extractHeaders o).1 t
      (by rw [extractHeaders_fst_react]; exact hr)] at h3
    exact h3

/-- Witness for C9: with a renderer producing
`"<!DOCTYPE html><html>$Hello$</html>"`, the SMTP `mailOptions.html` is
that exact string, while the HTTP payload's `html` is the cleaned
`"Hello"` — both replacing the caller's `html`. -/
theorem claim_C9_witness :
    (SMTPClient.buildMailOptions testCollab reactOpts).map (fun mo => mo.html)
        = .ok (some "<!DOCTYPE html><html>$Hello$</html>")
      ∧ (normalizeOptionsHttp testCollab reactOpts).map (fun p => p.1.html)
          = .ok (some "Hello") := by
  have h := claim_C9_template_rendering testCollab reactOpts ⟨0⟩ rfl
  constructor
  · cases hb : SMTPClient.buildMailOptions testCollab reactOpts with
    | error e =>
      have hok : (SMTPClient.buildMailOptions testCollab reactOpts).isOk = true := by decide
      rw [hb] at hok
      cases hok
    | ok mo =>
      rw [Except.map, h.1 mo hb]
      decide
  · cases hn : normalizeOptionsHttp testCollab reactOpts with
    | error e =>
      have hok : (normalizeOptionsHttp testCollab reactOpts).isOk = true := by decide
      rw [hn] at hok
      cases hok
    | ok p =>
      rw [Except.map, h.2 p.1 p.2.1 p.2.2 (by rw [hn])]
      decide

/-- Counterexample for C9 as stated: at a concrete rendered string
carrying a DOCTYPE, an `<html>` envelope and `$` markers, the SMTP
path's outgoing `html` still contains all the artifacts (it is the raw
rendered string), while the HTTP path's serialized `html` is the
stripped `"Hello"` — so it is not the SMTP path that strips rendering
artifacts. -/
theorem claim_C9_counterexample :
    (SMTPClient.buildMailOptions testCollab reactOpts).map (fun mo => mo.html)
        = .ok (some "<!DOCTYPE html><html>$Hello$</html>")
      ∧ (normalizeOptionsHttp testCollab reactOpts).map (fun p => p.1.html)
          = .ok (some "Hello")
      ∧ ("<!DOCTYPE html><html>$Hello$</html>" : String) ≠ "Hello" := by
  refine ⟨by decide, by decide, by decide⟩

/-! ## C1 — aggregation semantics of the HTTP `sendEmails` -/

theorem promiseAll_ok {E : Type} (xs : List (Except E Unit))
    (h : ∀ x ∈ xs, x = .ok ()) :
    promiseAll xs = .ok (xs.map (fun _ => ())) := by
  induction xs with
  | nil => rfl
  | cons x rest ih =>
    have hx := h x (by simp)
    subst hx
    show (promiseAll rest).map _ = _
    rw [ih (fun y hy => h y (by simp [hy]))]
    rfl

theorem promiseAll_error {E : Type} (l1 l2 : List (Except E Unit)) (e : E)
    (h : ∀ x ∈ l1, x = .ok ()) :
    promiseAll (l1 ++ .error e :: l2) = .error e := by
  induction l1 with
  | nil => rfl
  | cons x rest ih =>
    have hx := h x (by simp)
    subst hx
    show (promiseAll (rest ++ .error e :: l2)).map _ = _
    rw [ih (fun y hy => h y (by simp [hy]))]
    rfl

/-- C1 (amended): `sendEmails` dispatches every element (each element's
send runs and is not cancelled by another element's failure, in input
order), but aggregates with `Promise.all`, exactly as the SMTP path
does: if every element fulfils, the caller gets one fulfilment per
element in input order; if any element rejects, the aggregate rejects
with the first failing element's error, and the other elements'
outcomes (including successes) are not returned to the caller. -/
theorem claim_C1_sendMany_all_or_nothing
    (sb : Shoutbox) (c : Collab) (opts : List EmailOptions) :
    (Shoutbox.sendEmails sb c opts).1 = opts.map (Shoutbox.send sb c)
    ∧ ((∀ o ∈ opts, (Shoutbox.send sb c o).result = .ok ()) →
        (Shoutbox.sendEmails sb c opts).2 = .ok (opts.map (fun _ => ())))
    ∧ (∀ l1 o l2 e, opts = l1 ++ o :: l2 →
        (∀ o' ∈ l1, (Shoutbox.send sb c o').result = .ok ()) →
        (Shoutbox.send sb c o).result = .error e →
        (Shoutbox.sendEmails sb c opts).2 = .error e) := by
  refine ⟨rfl, ?_, ?_⟩
  · intro hall
    show promiseAll ((opts.map (Shoutbox.send sb c)).map (fun t => t.result)) = _
    rw [List.map_map]
    rw [promiseAll_ok _ ?hall]
    case hall =>
      intro x hx
      rw [List.mem_map] at hx
      obtain ⟨o, ho, rfl⟩ := hx
      exact hall o ho
    rw [List.map_map]
  · intro l1 o l2 e hsplit h1 he
    subst hsplit
    show promiseAll (((l1 ++ o :: l2).map (Shoutbox.send sb c)).map (fun t => t.result))
        = _
    rw [List.map_map, List.map_append, List.map_cons]
    have hcomp : ((fun t => SendTrace.result t) ∘ Shoutbox.send sb c) o = .error e := he
    rw [hcomp]
    refine promiseAll_error _ _ e ?_
    intro x hx
    rw [List.mem_map] at hx
    obtain ⟨o', ho', rfl⟩ := hx
    exact h1 o' ho'

/-- Witness for C1: a single fulfilled element yields `.ok [()]`; a
succeeding first element followed by a failing second element makes
the aggregate reject with the second element's file-read error. -/
theorem claim_C1_witness :
    (Shoutbox.sendEmails ⟨"k"⟩ testCollab [baseOpts]).2 = .ok [()]
    ∧ (Shoutbox.sendEmails ⟨"k"⟩ testCollab [baseOpts, badOpts]).2
        = .error (.fileReadError "missing.bin") := by
  constructor
  · exact (claim_C1_sendMany_all_or_nothing ⟨"k"⟩ testCollab [baseOpts]).2.1
      (by
        intro o ho
        rw [List.mem_singleton] at ho
        subst ho
        decide)
  · exact (claim_C1_sendMany_all_or_nothing ⟨"k"⟩ testCollab [baseOpts, badOpts]).2.2
      [baseOpts] badOpts [] _ rfl
      (by
        intro o' ho'
        rw [List.mem_singleton] at ho'
        subst ho'
        decide)
      (by decide)

/-- Counterexample for C1 as stated: with one failing and one
succeeding element, the caller does not receive two independent
outcomes — the aggregate is a single rejection carrying the failing
element's error, and the succeeding element's outcome is masked. -/
theorem claim_C1_counterexample :
    (Shoutbox.send ⟨"k"⟩ testCollab baseOpts).result = .ok ()
    ∧ (Shoutbox.send ⟨"k"⟩ testCollab badOpts).result
        = .error (.fileReadError "missing.bin")
    ∧ (Shoutbox.sendEmails ⟨"k"⟩ testCollab [badOpts, baseOpts]).2
        = .error (.fileReadError "missing.bin") := by
  exact ⟨by decide, by decide, by decide⟩

/-! ## JS object lemmas (property assignment and spread) -/

theorem objGet_cons (q : String × String) (rest : List (String × String)) (k : String) :
    objGet (q :: rest) k = if q.1 = k then some q.2 else objGet rest k := by
  by_cases hq : q.1 = k <;> simp [objGet, List.find?_cons, hq]

theorem objGet_none_of_forall (m : List (String × String)) (k : String)
    (h : ∀ p ∈ m, p.1 ≠ k) : objGet m k = none := by
  induction m with
  | nil => rfl
  | cons q rest ih =>
    rw [objGet_cons, if_neg (h q (by simp))]
    exact ih (fun p hp => h p (by simp [hp]))

theorem objGet_map_overwrite (m : List (String × String)) (kv : String × String)
    (k : String) (h : k ≠ kv.1) :
    objGet (m.map (fun p => if p.1 = kv.1 then (p.1, kv.2) else p)) k = objGet m k := by
  induction m with
  | nil => rfl
  | cons q rest ih =>
    by_cases hq : q.1 = kv.1
    · have hqk : ¬ q.1 = k := by rw [hq]; exact fun he => h he.symm
      rw [List.map_cons, if_pos hq, objGet_cons, objGet_cons, if_neg hqk, if_neg hqk]
      exact ih
    · rw [List.map_cons, if_neg hq, objGet_cons, objGet_cons]
      by_cases hqk : q.1 = k
      · rw [if_pos hqk, if_pos hqk]
      · rw [if_neg hqk, if_neg hqk]
        exact ih

theorem objGet_map_self (m : List (String × String)) (kv : String × String)
    (h : m.any (fun p => p.1 = kv.1) = true) :
    objGet (m.map (fun p => if p.1 = kv.1 then (p.1, kv.2) else p)) kv.1
      = some kv.2 := by
  induction m with
  | nil => cases h
  | cons q rest ih =>
    by_cases hq : q.1 = kv.1
    · rw [List.map_cons, if_pos hq, objGet_cons, if_pos hq]
    · rw [List.map_cons, if_neg hq, objGet_cons, if_neg hq]
      refine ih ?_
      rw [List.any_cons] at h
      simpa [hq] using h

theorem objGet_append_single_ne (m : List (String × String)) (kv : String × String)
    (k : String) (h : k ≠ kv.1) :
    objGet (m ++ [kv]) k = objGet m k := by
  induction m with
  | nil =>
    show objGet [kv] k = none
    exact objGet_none_of_forall _ _ (by simpa using fun he => h he.symm)
  | cons q rest ih =>
    rw [List.cons_append, objGet_cons, objGet_cons]
    by_cases hqk : q.1 = k
    · rw [if_pos hqk, if_pos hqk]
    · rw [if_neg hqk, if_neg hqk]
      exact ih

theorem objGet_append_single_self (m : List (String × String)) (kv : String × String)
    (h : ∀ p ∈ m, p.1 ≠ kv.1) :
    objGet (m ++ [kv]) kv.1 = some kv.2 := by
  induction m with
  | nil => simp [objGet_cons]
  | cons q rest ih =>
    rw [List.cons_append, objGet_cons, if_neg (h q (by simp))]
    exact ih (fun p hp => h p (by simp [hp]))

theorem objGet_objInsert (m : List (String × String)) (kv : String × String)
    (k : String) :
    objGet (objInsert m kv) k = if k = kv.1 then some kv.2 else objGet m k := by
  unfold objInsert
  by_cases hany : m.any (fun p => p.1 = kv.1)
  · rw [if_pos hany]
    by_cases hk : k = kv.1
    · subst hk
      rw [if_pos rfl]
      exact objGet_map_self m kv hany
    · rw [if_neg hk]
      exact objGet_map_overwrite m kv k hk
  · rw [if_neg hany]
    have hall : ∀ p ∈ m, p.1 ≠ kv.1 := by
      intro p hp hpe
      exact hany (List.any_eq_true.mpr ⟨p, hp, by simpa using hpe⟩)
    by_cases hk : k = kv.1
    · subst hk
      rw [if_pos rfl]
      exact objGet_append_single_self m kv hall
    · rw [if_neg hk]
      exact objGet_append_single_ne m kv k hk

theorem objGet_foldl_of_none (l : List (String × String)) (m : List (String × String))
    (k : String) (h : objGet l k = none) :
    objGet (l.foldl objInsert m) k = objGet m k := by
  induction l generalizing m with
  | nil => rfl
  | cons p rest ih =>
    rw [objGet_cons] at h
    by_cases hp : p.1 = k
    · rw [if_pos hp] at h; cases h
    · rw [if_neg hp] at h
      show objGet (rest.foldl objInsert (objInsert m p)) k = objGet m k
      rw [ih _ h, objGet_objInsert, if_neg (fun he => hp he.symm)]

theorem objGet_foldl_isSome (l : List (String × String)) (m : List (String × String))
    (k : String) (h : (objGet m k).isSome = true) :
    (objGet (l.foldl objInsert m) k).isSome = true := by
  induction l generalizing m with
  | nil => exact h
  | cons p rest ih =>
    show (objGet (rest.foldl objInsert (objInsert m p)) k).isSome = true
    refine ih _ ?_
    rw [objGet_objInsert]
    by_cases hk : k = p.1
    · rw [if_pos hk]; rfl
    · rw [if_neg hk]; exact h

theorem objGet_foldl_of_some (l : List (String × String)) (m : List (String × String))
    (k : String) (v : String) (hnd : (l.map Prod.fst).Nodup)
    (h : objGet l k = some v) :
    objGet (l.foldl objInsert m) k = some v := by
  induction l generalizing m with
  | nil => cases h
  | cons p rest ih =>
    rw [objGet_cons] at h
    rw [List.map_cons, List.nodup_cons] at hnd
    by_cases hp : p.1 = k
    · rw [if_pos hp] at h
      have hrest : objGet rest k = none := by
        refine objGet_none_of_forall rest k ?_
        intro q hq he
        refine hnd.1 ?_
        rw [hp, ← he]
        exact List.mem_map_of_mem Prod.fst hq
      show objGet (rest.foldl objInsert (objInsert m p)) k = some v
      rw [objGet_foldl_of_none rest _ k hrest, objGet_objInsert,
        if_pos hp.symm]
      exact h
    · rw [if_neg hp] at h
      exact ih _ hnd.2 h

theorem objInsert_nodup_keys (m : List (String × String)) (kv : String × String)
    (h : (m.map Prod.fst).Nodup) :
    ((objInsert m kv).map Prod.fst).Nodup := by
  unfold objInsert
  by_cases hany : m.any (fun p => p.1 = kv.1)
  · rw [if_pos hany]
    have hkeys : (m.map (fun p => if p.1 = kv.1 then (p.1, kv.2) else p)).map Prod.fst
        = m.map Prod.fst := by
      rw [List.map_map]
      refine List.map_congr_left ?_
      intro p _
      by_cases hp : p.1 = kv.1 <;> simp [hp]
    rw [hkeys]
    exact h
  · rw [if_neg hany]
    rw [List.map_append]
    rw [List.nodup_append]
    refine ⟨h, by simp, ?_⟩
    intro a ha hb
    rw [List.map_singleton, List.mem_singleton] at hb
    subst hb
    rw [List.mem_map] at ha
    obtain ⟨p, hp, hpa⟩ := ha
    exact hany (List.any_eq_true.mpr ⟨p, hp, by simpa using hpa⟩)

theorem objOfEntries_nodup_keys (l : List (String × String)) :
    ((objOfEntries l).map Prod.fst).Nodup := by
  have hgen : ∀ (m : List (String × String)), (m.map Prod.fst).Nodup →
      ((l.foldl objInsert m).map Prod.fst).Nodup := by
    induction l with
    | nil => intro m hm; exact hm
    | cons p rest ih =>
      intro m hm
      exact ih _ (objInsert_nodup_keys m p hm)
  exact hgen [] (by simp)

/-! ## C7 / C10 — header extraction and request headers -/

theorem not_mem_map_fst_optField (s k : String) (x : Option (List Char)) (h : s ≠ k) :
    s ∉ (optField k x).map Prod.fst := by
  cases x with
  | none => simp [optField]
  | some v => simpa [optField] using h

theorem jsonFields_no_headers_key (c : Collab) (n : EmailOptions)
    (h : n.headers = none) :
    "headers" ∉ (jsonFields c n).map Prod.fst := by
  intro hmem
  unfold jsonFields at hmem
  rw [h] at hmem
  simp only [List.map_append, List.mem_append] at hmem
  rcases hmem with
    (((((((((h1 | h2) | h3) | h4) | h5) | h6) | h7) | h8) | h9) | h10) | h11
  · rw [List.map_cons, List.map_nil, List.mem_singleton] at h1
    have h1x : ("headers" : String) = "from" := h1
    exact absurd h1x (by decide)
  · exact not_mem_map_fst_optField _ _ _ (by decide) h2
  · rw [List.map_cons, List.map_cons, List.map_nil] at h3
    rcases List.mem_cons.mp h3 with h3 | h3
    · have h3x : ("headers" : String) = "to" := h3
      exact absurd h3x (by decide)
    · rw [List.mem_singleton] at h3
      have h3x : ("headers" : String) = "subject" := h3
      exact absurd h3x (by decide)
  · exact not_mem_map_fst_optField _ _ _ (by decide) h4
  · exact not_mem_map_fst_optField _ _ _ (by decide) h5
  · exact not_mem_map_fst_optField _ _ _ (by decide) h6
  · exact not_mem_map_fst_optField _ _ _ (by decide) h7
  · exact not_mem_map_fst_optField _ _ _ (by decide) h8
  · exact not_mem_map_fst_optField _ _ _ (by decide) h9
  · simp [optField] at h10
  · exact not_mem_map_fst_optField _ _ _ (by decide) h11

theorem send_request_of_le (sb : Shoutbox) (c : Collab) (o n : EmailOptions)
    (extra : List (String × String)) (reads : List String)
    (hn : normalizeOptionsHttp c o = .ok (n, extra, reads))
    (hlen : ¬ MAX_BODY < (stringifyOptions c n).length) :
    (Shoutbox.send sb c o).request
      = some (buildRequest sb extra (stringifyOptions c n)) := by
  unfold Shoutbox.send
  rw [hn]
  dsimp only
  rw [if_neg hlen]
  cases hf : c.fetch (buildRequest sb extra (stringifyOptions c n)) <;> rfl

/-- C7: when the options carry a `headers` record, the HTTP path moves
it out before serialization — the JSON body has no `headers` member —
and (when the size gate passes) the issued request's header object
carries every custom entry, with the `Authorization` and `Content-Type`
keys also present. -/
theorem claim_C7_header_extraction
    (sb : Shoutbox) (c : Collab) (o n : EmailOptions) (hs : List (String × String))
    (extra : List (String × String)) (reads : List String)
    (hh : o.headers = some hs)
    (hn : normalizeOptionsHttp c o = .ok (n, extra, reads))
    (hlen : ¬ MAX_BODY < (stringifyOptions c n).length) :
    "headers" ∉ (jsonFields c n).map Prod.fst
    ∧ extra = objOfEntries hs
    ∧ (Shoutbox.send sb c o).request
        = some (buildRequest sb extra (stringifyOptions c n))
    ∧ (∀ k v, objGet (objOfEntries hs) k = some v →
        objGet (buildRequest sb extra (stringifyOptions c n)).headers k = some v)
    ∧ (objGet (buildRequest sb extra (stringifyOptions c n)).headers
        "Authorization").isSome = true
    ∧ (objGet (buildRequest sb extra (stringifyOptions c n)).headers
        "Content-Type").isSome = true := by
  obtain ⟨hex, hhn, _⟩ := normalizeOptionsHttp_ok c o n extra reads hn
  have hex2 : extra = objOfEntries hs := by
    rw [hex, extractHeaders_of_some o hs hh]
  refine ⟨jsonFields_no_headers_key c n hhn, hex2,
    send_request_of_le sb c o n extra reads hn hlen, ?_, ?_, ?_⟩
  · intro k v hkv
    show objGet (requestHeaders sb extra) k = some v
    rw [hex2]
    exact objGet_foldl_of_some _ _ k v (objOfEntries_nodup_keys hs) hkv
  · show (objGet (requestHeaders sb extra) "Authorization").isSome = true
    exact objGet_foldl_isSome extra (defaultHeaders sb) "Authorization" rfl
  · show (objGet (requestHeaders sb extra) "Content-Type").isSome = true
    exact objGet_foldl_isSome extra (defaultHeaders sb) "Content-Type" rfl

/-- Witness for C7: with `headers = \x7b"X-A": "1"\x7d`, the serialized
body has no `headers` key and the request header object maps `X-A` to
`1` alongside `Authorization` and `Content-Type`. -/
theorem claim_C7_witness :
    "headers" ∉ (jsonFields testCollab { baseOpts with headers := none }).map Prod.fst
    ∧ objGet (buildRequest ⟨"k"⟩ (objOfEntries [("X-A", "1")])
        (stringifyOptions testCollab { baseOpts with headers := none })).headers "X-A"
        = some "1"
    ∧ (objGet (buildRequest ⟨"k"⟩ (objOfEntries [("X-A", "1")])
        (stringifyOptions testCollab { baseOpts with headers := none })).headers
        "Authorization").isSome = true
    ∧ (objGet (buildRequest ⟨"k"⟩ (objOfEntries [("X-A", "1")])
        (stringifyOptions testCollab { baseOpts with headers := none })).headers
        "Content-Type").isSome = true := by
  have h := claim_C7_header_extraction ⟨"k"⟩ testCollab hdrOpts
    { baseOpts with headers := none } [("X-A", "1")] (objOfEntries [("X-A", "1")]) []
    rfl (by decide) (by decide)
  exact ⟨h.1, h.2.2.2.1 "X-A" "1" (by decide), h.2.2.2.2.1, h.2.2.2.2.2⟩

/-- C10: a caller-supplied `headers` entry whose key is `Authorization`
(or `Content-Type`) overrides the dispatcher's built-in request header
of that name, because the object spread `...extraHeaders` comes after
the defaults in the header object literal. -/
theorem claim_C10_custom_header_override
    (sb : Shoutbox) (c : Collab) (o n : EmailOptions) (hs : List (String × String))
    (extra : List (String × String)) (reads : List String) (va vc : String)
    (hh : o.headers = some hs)
    (hn : normalizeOptionsHttp c o = .ok (n, extra, reads))
    (hlen : ¬ MAX_BODY < (stringifyOptions c n).length)
    (ha : objGet (objOfEntries hs) "Authorization" = some va)
    (hc2 : objGet (objOfEntries hs) "Content-Type" = some vc) :
    (Shoutbox.send sb c o).request
        = some (buildRequest sb extra (stringifyOptions c n))
    ∧ objGet (buildRequest sb extra (stringifyOptions c n)).headers "Authorization"
        = some va
    ∧ objGet (buildRequest sb extra (stringifyOptions c n)).headers "Content-Type"
        = some vc := by
  obtain ⟨hex, _, _⟩ := normalizeOptionsHttp_ok c o n extra reads hn
  have hex2 : extra = objOfEntries hs := by
    rw [hex, extractHeaders_of_some o hs hh]
  refine ⟨send_request_of_le sb c o n extra reads hn hlen, ?_, ?_⟩
  · show objGet (requestHeaders sb extra) "Authorization" = some va
    rw [hex2]
    exact objGet_foldl_of_some _ _ _ va (objOfEntries_nodup_keys hs) ha
  · show objGet (requestHeaders sb extra) "Content-Type" = some vc
    rw [hex2]
    exact objGet_foldl_of_some _ _ _ vc (objOfEntries_nodup_keys hs) hc2

/-- Witness for C10: custom `Authorization: custom-token` and
`Content-Type: text/plain` headers replace the defaults
(`Bearer k` / `application/json`) in the issued request. -/
theorem claim_C10_witness :
    objGet (buildRequest ⟨"k"⟩
        (objOfEntries [("Authorization", "custom-token"), ("Content-Type", "text/plain")])
        (stringifyOptions testCollab { baseOpts with headers := none })).headers
        "Authorization" = some "custom-token"
    ∧ objGet (buildRequest ⟨"k"⟩
        (objOfEntries [("Authorization", "custom-token"), ("Content-Type", "text/plain")])
        (stringifyOptions testCollab { baseOpts with headers := none })).headers
        "Content-Type" = some "text/plain"
    ∧ ("custom-token" : String) ≠ "Bearer k"
    ∧ ("text/plain" : String) ≠ "application/json" := by
  have h := claim_C10_custom_header_override ⟨"k"⟩ testCollab ovrOpts
    { baseOpts with headers := none }
    [("Authorization", "custom-token"), ("Content-Type", "text/plain")]
    (objOfEntries [("Authorization", "custom-token"), ("Content-Type", "text/plain")]) []
    "custom-token" "text/plain" rfl (by decide) (by decide) (by decide) (by decide)
  exact ⟨h.2.1, h.2.2, by decide, by decide⟩

/-! ## C3 — the 1 MiB size gate -/

theorem jsonEscape_replicate (k : Nat) :
    jsonEscape (bigStr k) = List.replicate k 'a' := by
  show ((List.replicate k 'a').map jsonEscapeChar).flatten = List.replicate k 'a'
  induction k with
  | zero => rfl
  | succ m ih =>
    rw [List.replicate_succ, List.map_cons, List.flatten_cons, ih,
      show jsonEscapeChar 'a' = ['a'] from rfl]
    rfl

/-- The serialized length of `bigOpts k` is `45 + k` (45 characters of
fixed JSON structure around the `k`-character `html` body). -/
theorem stringify_bigOpts_length (c : Collab) (k : Nat) :
    (stringifyOptions c (bigOpts k)).length = 45 + k := by
  show (jsonObj (jsonFields c (bigOpts k))).length = 45 + k
  rw [show jsonFields c (bigOpts k) = [("from", jsonStr "f"),
    ("to", jsonRecipients (.single "t")), ("subject", jsonStr "s"),
    ("html", jsonStr (bigStr k))] from rfl]
  rw [show jsonObj [("from", jsonStr "f"), ("to", jsonRecipients (.single "t")),
      ("subject", jsonStr "s"), ("html", jsonStr (bigStr k))]
    = '\x7b' :: (((jsonStr "from" ++ ':' :: jsonStr "f")
        ++ ([','] ++ ((jsonStr "to" ++ ':' :: jsonRecipients (.single "t"))
        ++ ([','] ++ ((jsonStr "subject" ++ ':' :: jsonStr "s")
        ++ ([','] ++ ((jsonStr "html" ++ ':' :: jsonStr (bigStr k)) ++ ([] : List Char))))))))
      ++ ['\x7d']) from rfl]
  rw [show jsonStr (bigStr k) = '"' :: (jsonEscape (bigStr k) ++ ['"']) from rfl,
    jsonEscape_replicate]
  simp only [List.length_cons, List.length_append, List.length_replicate,
    List.length_nil]
  rw [show (jsonStr "from").length = 6 from rfl,
    show (jsonStr "f").length = 3 from rfl,
    show (jsonStr "to").length = 4 from rfl,
    show (jsonRecipients (.single "t")).length = 3 from rfl,
    show (jsonStr "subject").length = 9 from rfl,
    show (jsonStr "s").length = 3 from rfl,
    show (jsonStr "html").length = 6 from rfl]
  omega

/-- C3: after normalization, the HTTP `send` serializes the options and
applies the strict size gate `emailContent.length > 1024 * 1024`: a
body strictly longer than 1,048,576 fails locally with a size error
carrying the actual length and issues no network request, while a body
of exactly 1,048,576 (or less) proceeds to issue the request. -/
theorem claim_C3_size_gate (sb : Shoutbox) (c : Collab) (o n : EmailOptions)
    (extra : List (String × String)) (reads : List String)
    (hn : normalizeOptionsHttp c o = .ok (n, extra, reads)) :
    (Shoutbox.send sb c o).request
        = (if (stringifyOptions c n).length > MAX_BODY then none
           else some (buildRequest sb extra (stringifyOptions c n)))
    ∧ ((stringifyOptions c n).length > MAX_BODY →
        (Shoutbox.send sb c o).result
          = .error (.bodyTooLarge (stringifyOptions c n).length)) := by
  constructor
  · unfold Shoutbox.send
    rw [hn]
    dsimp only
    by_cases hl : (stringifyOptions c n).length > MAX_BODY
    · rw [if_pos hl, if_pos hl]
    · rw [if_neg hl, if_neg hl]
      cases hf : c.fetch (buildRequest sb extra (stringifyOptions c n)) <;> rfl
  · intro hl
    unfold Shoutbox.send
    rw [hn]
    dsimp only
    rw [if_pos hl]

/-- Witness for C3: a 1,048,577-character body (one over the ceiling)
makes the send fail with `bodyTooLarge 1048577` and no request. -/
theorem claim_C3_witness :
    (stringifyOptions testCollab (bigOpts 1048532)).length > MAX_BODY
    ∧ (Shoutbox.send ⟨"k"⟩ testCollab (bigOpts 1048532)).request = none
    ∧ (Shoutbox.send ⟨"k"⟩ testCollab (bigOpts 1048532)).result
        = .error (.bodyTooLarge (stringifyOptions testCollab (bigOpts 1048532)).length) := by
  have hgt : (stringifyOptions testCollab (bigOpts 1048532)).length > MAX_BODY := by
    rw [stringify_bigOpts_length testCollab 1048532]
    show 1024 * 1024 < 45 + 1048532
    omega
  have hn : normalizeOptionsHttp testCollab (bigOpts 1048532)
      = .ok (bigOpts 1048532, [], []) := rfl
  have h := claim_C3_size_gate ⟨"k"⟩ testCollab (bigOpts 1048532) (bigOpts 1048532)
    [] [] hn
  exact ⟨hgt, by rw [h.1, if_pos hgt], h.2 hgt⟩

end ShoutboxSpec
